import Mathlib

/-!
Shallow embedding of the homebridge-cync core (src/index.js): the framed
packet codec, the session layer (auth handling, reconnect backoff, send
queue, sequence numbers) and the status handlers, together with theorems
checking the natural-language specification against this code.

Conventions of the embedding:
  * Node `Buffer`s are `List Nat` of byte values.
  * `Buffer.readUInt8(k)` throws `ERR_OUT_OF_RANGE` when `k` is out of
    bounds; it is modelled by `readU8` returning `Except String Nat`.
    Reads that sit under a length guard that makes them in-bounds are
    modelled directly with `List.getD` (the default is never reached).
  * `Buffer.writeUInt8/16BE/32BE` validate their value range and throw
    `ERR_OUT_OF_RANGE` otherwise; modelled by `writeU8C`, `writeU16BE`,
    `writeU32BE` returning `Except`.
  * JS `Math.round` rounds half toward positive infinity; modelled by
    `jsRound` over `ℚ` (the JS float computations here are on small
    rationals far from rounding boundaries).
  * `while` loops that advance an index are modelled with an explicit
    fuel argument large enough that it is never exhausted (each step
    consumes at least one list element, so `length + 1` suffices).
-/

namespace Cync

/-- Checked byte write: Node `Buffer.writeUInt8` validates `0 ≤ v ≤ 255`. -/
def writeU8C (v : Nat) : Except String Nat :=
  if v ≤ 255 then .ok v else .error "ERR_OUT_OF_RANGE"

/-- Checked 16-bit big-endian write (`Buffer.writeUInt16BE`): validates
`v ≤ 65535`, stores high byte then low byte. -/
def writeU16BE (v : Nat) : Except String (Nat × Nat) :=
  if v ≤ 65535 then .ok (v / 256, v % 256) else .error "ERR_OUT_OF_RANGE"

/-- The four big-endian bytes of a 32-bit value. -/
def be32 (n : Nat) : List Nat :=
  [n / 16777216 % 256, n / 65536 % 256, n / 256 % 256, n % 256]

/-- Checked 32-bit big-endian write (`Buffer.writeUInt32BE`): validates
`v < 2^32`. -/
def writeU32BE (v : Nat) : Except String (List Nat) :=
  if v < 4294967296 then .ok (be32 v) else .error "ERR_OUT_OF_RANGE"

/-- Value of four big-endian bytes (`Buffer.readUInt32BE`). -/
def be32val (b1 b2 b3 b4 : Nat) : Nat :=
  b1 * 16777216 + b2 * 65536 + b3 * 256 + b4

/-- `Buffer.readUInt8(k)`: the byte at offset `k`, or `ERR_OUT_OF_RANGE`
when the offset is outside the buffer. -/
def readU8 (b : List Nat) (k : Nat) : Except String Nat :=
  if k < b.length then .ok (b.getD k 0) else .error "ERR_OUT_OF_RANGE"

/-- `CyncPlatform.createPacket(type, data)`: allocate `data.length + 5`
zeroed bytes, write `(type << 4) | 3` at offset 0 and, only when the
payload is nonempty, the 32-bit big-endian length at offset 1 followed by
the payload at offset 5.  For an empty payload the length field stays at
its zero fill. -/
def createPacket (type : Nat) (data : List Nat) : Except String (List Nat) := do
  let tb ← writeU8C (type <<< 4 ||| 3)
  if 0 < data.length then
    let lenBytes ← writeU32BE data.length
    pure (tb :: lenBytes ++ data)
  else
    pure [tb, 0, 0, 0, 0]

/-- An inbound packet as produced by `CyncPlatform.readPacket`. -/
structure Packet where
  type : Nat
  length : Nat
  isResponse : Bool
  data : List Nat
deriving DecidableEq

/-- `CyncPlatform.readPacket()`: read the 5-byte header (null when fewer
than 5 bytes are available), take `type = byte0 >> 4`,
`isResponse = (byte0 & 8) != 0` and the big-endian length at offset 1;
when `length > 0` read that many payload bytes and return the packet if
they are all available, otherwise null. -/
def readPacket (stream : List Nat) : Option Packet :=
  if 5 ≤ stream.length then
    let b0 := stream.getD 0 0
    let length := be32val (stream.getD 1 0) (stream.getD 2 0)
      (stream.getD 3 0) (stream.getD 4 0)
    if 0 < length then
      let data := (stream.drop 5).take length
      if data.length = length then
        some ⟨b0 >>> 4, length, b0 &&& 8 != 0, data⟩
      else none
    else none
  else none

/-- `LightBulb.sendUpdate()`: the 16-byte SET_STATE inner request.
Offsets (zero fill elsewhere): meshID as 16-bit BE at 3..4, subtype 0xF0
at 5, on at 8 (JS coerces the boolean with unary plus), brightness at 9,
cyncColorTemp at 10, rgb at 11..13, the checksum
`(496 + meshID + (on?1:0) + bright + temp + r + g + b) % 256` at 14 and
0x7E at 15. -/
def sendUpdateRequest (meshID : Nat) (isOn : Bool)
    (brightness cyncTemp r g b : Nat) : Except String (List Nat) := do
  let mesh ← writeU16BE meshID
  let onByte := if isOn then 1 else 0
  let br ← writeU8C brightness
  let ct ← writeU8C cyncTemp
  let rB ← writeU8C r
  let gB ← writeU8C g
  let bB ← writeU8C b
  let checksum :=
    (496 + meshID + onByte + brightness + cyncTemp + r + g + b) % 256
  pure [0, 0, 0, mesh.1, mesh.2, 0xf0, 0, 0,
        onByte, br, ct, rB, gB, bB, checksum, 0x7e]

/-- `CyncPlatform.sendRequest(type, switchID, subtype, request)`: the
18-byte request envelope.  switchID as 32-bit BE at 0..3, the sequence
number as 16-bit BE at 4..5, 0x7E at 7, 0xF8 at 12, the subtype at 13,
the inner length at 14 and the inner body from 18. -/
def sendRequestData (switchID seq subtype : Nat) (request : List Nat) :
    Except String (List Nat) := do
  let sw ← writeU32BE switchID
  let sq ← writeU16BE seq
  let st ← writeU8C subtype
  let ln ← writeU8C request.length
  pure (sw ++ [sq.1, sq.2, 0, 0x7e, 0, 0, 0, 0, 0xf8, st, ln, 0, 0, 0]
        ++ request)

/-- `CyncPlatform.updateConnectedDevice`: the 7-byte CONNECTED probe
payload — switchID as 32-bit BE at 0..3, the sequence number as 16-bit BE
at 4..5, a zero byte at 6. -/
def connectedRequestData (switchID seq : Nat) : Except String (List Nat) := do
  let sw ← writeU32BE switchID
  let sq ← writeU16BE seq
  pure (sw ++ [sq.1, sq.2, 0])

/-- The platform's `this.seq` counter: initialised to 1 in the
constructor and post-incremented by every `sendRequest` /
`updateConnectedDevice`, so `seqStream n` is its value after `n`
requests, i.e. the value carried by request number `n + 1`.  Nothing ever
resets it (in particular reconnecting does not). -/
def seqStream : Nat → Nat
  | 0 => 1
  | n + 1 => seqStream n + 1

/-- One bulb update as dispatched by the inbound status handlers.
`colorTemp = none` / `rgb = none` mean the handler passed the bulb's own
current `cyncColorTemp` / `rgb` along unchanged (the 0xDB shape), while
`some` carries a value decoded from the packet. -/
structure Update where
  meshID : Nat
  state : Bool
  brightness : Nat
  colorTemp : Option Nat
  rgb : Option (Nat × Nat × Nat)
deriving DecidableEq

/-- The paginated-record loop of `CyncPlatform.handleStatus`
(`while (status.length > 24)`): one 24-byte record per step —
`meshID@0`, `state = byte@8 > 0`, `brightness = state ? byte@12 : 0`,
colour temperature at 16 and rgb at 20..22 — then drop 24 bytes and
repeat.  The guard keeps every read in bounds, so `getD` never reaches
its default.  The fuel only bounds the iteration count and is never
exhausted when it exceeds `status.length / 24`. -/
def parsePagF : Nat → List Nat → List Update
  | 0, _ => []
  | fuel + 1, status =>
    if 24 < status.length then
      { meshID := status.getD 0 0
        state := 0 < status.getD 8 0
        brightness := if 0 < status.getD 8 0 then status.getD 12 0 else 0
        colorTemp := some (status.getD 16 0)
        rgb := some (status.getD 20 0, status.getD 21 0, status.getD 22 0) }
        :: parsePagF fuel (status.drop 24)
    else []

/-- The paginated-record loop started on a buffer, with adequate fuel. -/
def parsePag (status : List Nat) : List Update :=
  parsePagF (status.length + 1) status

/-- The subtype dispatch of `CyncPlatform.handleStatus` (the parsing part;
the `lightBulbByMeshID` lookup then applies each returned update to the
bulb with that meshID when one exists).  When the payload length is at
least 25, byte 13 selects the subtype.  For 0xDB (GET_STATUS) the single
update is read from bytes 21/27/28 — and, the `case` having no `break`,
control then FALLS THROUGH into the 0x52 (GET_STATUS_PAGINATED) body,
which re-slices the same payload from offset 22 and runs the paginated
loop.  For 0x52 only the paginated loop runs. -/
def handleStatus (data : List Nat) : Except String (List Update) :=
  if 25 ≤ data.length then do
    let subtype ← readU8 data 13
    if subtype = 0xdb then do
      let meshID ← readU8 data 21
      let st ← readU8 data 27
      let state := 0 < st
      let brightness ← if state then readU8 data 28 else pure 0
      pure (⟨meshID, state, brightness, none, none⟩
            :: parsePag (data.drop 22))
    else if subtype = 0x52 then
      pure (parsePag (data.drop 22))
    else
      pure []
  else pure []

/-- One record dispatched by `CyncPlatform.handleSync`: `meshID@3`,
`isOn = byte@4 > 0`, `brightness = isOn ? byte@5 : 0`, colour
temperature at 6 (the bulb's rgb is passed through unchanged). -/
structure SyncUpd where
  meshID : Nat
  isOn : Bool
  brightness : Nat
  colorTemp : Nat
deriving DecidableEq

/-- One iteration body of the `handleSync` record loop: the reads on the
(possibly short) 19-byte slice, each of which throws when the slice is
too short for its offset. -/
def parseSyncRecord (status : List Nat) : Except String SyncUpd := do
  let meshID ← readU8 status 3
  let onB ← readU8 status 4
  let isOn := 0 < onB
  let brightness ← if isOn then readU8 status 5 else pure 0
  let colorTemp ← readU8 status 6
  pure ⟨meshID, isOn, brightness, colorTemp⟩

/-- The `for (offset = 0; offset < data.length; offset += 19)` loop of
`CyncPlatform.handleSync`: each step slices
`data.subarray(offset, offset + 19)` (which clamps at the end of the
buffer) and parses a record from it.  The result is the list of updates
dispatched before any thrown `ERR_OUT_OF_RANGE`, together with that error
when one occurs.  The fuel only bounds the iteration count (the offset
advances by 19 each step) and is never exhausted for fuel
`> data.length / 19`. -/
def syncLoopF : Nat → List Nat → Nat → List SyncUpd × Option String
  | 0, _, _ => ([], none)
  | fuel + 1, data, offset =>
    if offset < data.length then
      match parseSyncRecord ((data.drop offset).take 19) with
      | .ok u =>
        let rest := syncLoopF fuel data (offset + 19)
        (u :: rest.1, rest.2)
      | .error e => ([], some e)
    else ([], none)

/-- `CyncPlatform.handleSync(packet)`: drop the 7-byte header, then run
the 19-byte record loop over the rest. -/
def handleSync (payload : List Nat) : List SyncUpd × Option String :=
  syncLoopF (payload.length + 1) (payload.drop 7) 0

/-- The session state relevant to the send queue, reconnect scheduling
and the AUTH response handler: the `connected` flag, the pending
`packetQueue`, the packets written to the socket so far (`wire`), the
time of the last successful connection (`connectionTime`) and the delays
of the `setTimeout(() => this.connect(), …)` calls issued so far
(`scheduled`). -/
structure SessionState where
  connected : Bool
  packetQueue : List (List Nat)
  wire : List (List Nat)
  connectionTime : ℤ
  scheduled : List ℤ
deriving DecidableEq

/-- `CyncPlatform.sendPacket`: write to the socket when connected,
otherwise push onto the unbounded `packetQueue`. -/
def sendPacketS (s : SessionState) (p : List Nat) : SessionState :=
  if s.connected then { s with wire := s.wire ++ [p] }
  else { s with packetQueue := s.packetQueue ++ [p] }

/-- The `while (this.packetQueue.length > 0) socket.write(shift())` loop
of `CyncPlatform.flushQueue`: repeatedly move the head of the queue to
the wire. -/
def flushLoop : List (List Nat) → List (List Nat) →
    List (List Nat) × List (List Nat)
  | [], wire => ([], wire)
  | p :: queue, wire => flushLoop queue (wire ++ [p])

/-- `CyncPlatform.flushQueue()`. -/
def flushQueueS (s : SessionState) : SessionState :=
  let r := flushLoop s.packetQueue s.wire
  { s with packetQueue := r.1, wire := r.2 }

/-- `CyncPlatform.handleConnect(packet)`, with
`authCode = packet.data.readUInt16BE()` (the first two payload bytes,
big-endian) and `now = Date.now()`.  On `authCode == 0`: flush the queue,
then set `connected = true` and record the connection time.  Otherwise:
set `connected = false` and log — nothing else (in particular no
`setTimeout` is issued here). -/
def handleConnectS (s : SessionState) (authCode : Nat) (now : ℤ) :
    SessionState :=
  if authCode = 0 then
    { flushQueueS s with connected := true, connectionTime := now }
  else
    { s with connected := false }

/-- The delay of the reconnect timer issued by
`CyncPlatform.disconnect()`: `Math.max(10000 - Date.now() +
this.connectionTime, 0)`. -/
def reconnectDelay (now connectionTime : ℤ) : ℤ :=
  max (10000 - now + connectionTime) 0

/-- `CyncPlatform.disconnect()`: mark disconnected and schedule
`connect` after `reconnectDelay`.  The packet queue is untouched. -/
def disconnectS (s : SessionState) (now : ℤ) : SessionState :=
  { s with connected := false
           scheduled := s.scheduled ++ [reconnectDelay now s.connectionTime] }

/-- JS `Math.round`: round half toward positive infinity. -/
def jsRound (q : ℚ) : ℤ := ⌊q + 1 / 2⌋

/-- The view-space colour temperature recomputed by
`LightBulb.updateStatus`:
`Math.round(((100 - cyncColorTemp) * 360) / 100) + 140`. -/
def derivedColorTemp (cyncColorTemp : ℤ) : ℤ :=
  jsRound (((100 - cyncColorTemp : ℤ) * 360 : ℚ) / 100) + 140

/-- The `color-convert` `rgb.hsv` conversion (hue and saturation
components) on exact rationals, before the library wrapper's rounding:
`r,g,b` are scaled to `[0,1]`, `v` is the max, `diff = v - min`; a zero
`diff` yields hue and saturation 0, otherwise `s = diff / v` and the hue
branch follows whichever channel attains `v`. -/
def rgbToHSq (R G B : ℚ) : ℚ × ℚ :=
  let r := R / 255
  let g := G / 255
  let b := B / 255
  let v := max r (max g b)
  let mn := min r (min g b)
  let diff := v - mn
  if diff = 0 then (0, 0)
  else
    let s := diff / v
    let diffc := fun c => (v - c) / 6 / diff + 1 / 2
    let h :=
      if r = v then diffc b - diffc g
      else if g = v then 1 / 3 + diffc r - diffc b
      else 2 / 3 + diffc g - diffc r
    let h2 := if h < 0 then h + 1 else if h > 1 then h - 1 else h
    (h2 * 360, s * 100)

/-- `convert.rgb.hsv` as used by `LightBulb.setHSV()`: the wrapped
conversion rounds each component with `Math.round`. -/
def rgbToHS (rgb : ℤ × ℤ × ℤ) : ℤ × ℤ :=
  let hs := rgbToHSq (rgb.1 : ℚ) (rgb.2.1 : ℚ) (rgb.2.2 : ℚ)
  (jsRound hs.1, jsRound hs.2)

/-- The `LightBulb` state fields touched by status updates. -/
structure Bulb where
  isOn : Bool
  brightness : ℤ
  colorTemp : ℤ
  cyncColorTemp : ℤ
  hue : ℤ
  saturation : ℤ
  rgb : ℤ × ℤ × ℤ
deriving DecidableEq

/-- A `LightBulb` as built by the constructor: everything off / zero. -/
def freshBulb : Bulb :=
  { isOn := false, brightness := 0, colorTemp := 0, cyncColorTemp := 0,
    hue := 0, saturation := 0, rgb := (0, 0, 0) }

/-- `LightBulb.updateStatus(isOn, brightness, colorTemp, rgb)`: overwrite
`on`, `brightness`, `cyncColorTemp` and `rgb`, recompute the view-space
`colorTemp` from the new `cyncColorTemp`, and recompute hue/saturation
from the new `rgb` via `setHSV()`. -/
def updateStatus (bulb : Bulb) (isOn : Bool) (brightness colorTemp : ℤ)
    (rgb : ℤ × ℤ × ℤ) : Bulb :=
  { bulb with
      isOn := isOn
      brightness := brightness
      cyncColorTemp := colorTemp
      colorTemp := derivedColorTemp colorTemp
      rgb := rgb
      hue := (rgbToHS rgb).1
      saturation := (rgbToHS rgb).2 }

/-- `LightBulb.setColorTemp(value)` (state part): store the view-space
value and derive the wire-space temperature with the inverse formula
`100 - Math.round(((value - 140) * 100) / 360)`. -/
def setColorTemp (bulb : Bulb) (value : ℤ) : Bulb :=
  { bulb with
      colorTemp := value
      cyncColorTemp := 100 - jsRound (((value - 140 : ℤ) * 100 : ℚ) / 360) }

/-- `CyncPlatform.handleStatusSync(packet)` applied to the bulb matched
by `lightBulbByMeshID(data[21])`: when the payload length is at least 33,
call `updateStatus` with `isOn = byte@27 > 0`,
`brightness = isOn ? byte@28 : 0`, and the bulb's own current
`cyncColorTemp` and `rgb` passed through; otherwise do nothing. -/
def handleStatusSync (data : List Nat) (bulb : Bulb) : Bulb :=
  if 33 ≤ data.length then
    let isOn := 0 < data.getD 27 0
    let brightness : ℤ := if isOn then (data.getD 28 0 : ℤ) else 0
    updateStatus bulb isOn brightness bulb.cyncColorTemp bulb.rgb
  else bulb

/-- A bulb whose derived view fields agree with their defining formulas
over its wire-space fields — the state every `updateStatus` call leaves
behind (a user `setColorTemp`/`setHue` can break it, since the user value
is stored directly and only its inverse image is sent). -/
def derivedConsistent (bulb : Bulb) : Prop :=
  bulb.colorTemp = derivedColorTemp bulb.cyncColorTemp ∧
  bulb.hue = (rgbToHS bulb.rgb).1 ∧
  bulb.saturation = (rgbToHS bulb.rgb).2

/-- A 70-byte STATUS payload with subtype 0x52 at offset 13 and two
consecutive 24-byte records from offset 22: record one reports
`(meshID 5, on, brightness 80, temp 30, rgb (10,20,30))`, record two
reports `(meshID 6, off)`. -/
def ex70 : List Nat :=
  [0, 0, 0, 0, 0, 0, 0, 0, 0, 0, 0, 0, 0, 0x52, 0, 0, 0, 0, 0, 0, 0, 0,
   5, 0, 0, 0, 0, 0, 0, 0, 1, 0, 0, 0, 80, 0, 0, 0, 30, 0, 0, 0, 10, 20, 30, 0,
   6, 0, 0, 0, 0, 0, 0, 0, 0, 0, 0, 0, 0, 0, 0, 0, 0, 0, 0, 0, 0, 0, 0, 0]

/-- A second 70-byte STATUS payload with subtype 0x52: record one is
`(meshID 3, off, temp 12, rgb (7,8,9))`, record two is `(meshID 4, on)`. -/
def ex70b : List Nat :=
  [0, 0, 0, 0, 0, 0, 0, 0, 0, 0, 0, 0, 0, 0x52, 0, 0, 0, 0, 0, 0, 0, 0,
   3, 0, 0, 0, 0, 0, 0, 0, 0, 0, 0, 0, 90, 0, 0, 0, 12, 0, 0, 0, 7, 8, 9, 0,
   4, 0, 0, 0, 0, 0, 0, 0, 1, 0, 0, 0, 50, 0, 0, 0, 20, 0, 0, 0, 1, 1, 1, 0]

/-- A 47-byte STATUS payload with subtype 0xDB at offset 13: the
single-device fields are meshID 5 at 21, on-byte 1 at 27, brightness 60
at 28; the bytes from offset 22 also form one full 24-byte paginated
record (meshID 9 at 22, on-byte 1 at 30, brightness 70 at 34, temp 40 at
38, rgb (1,2,3) at 42..44) with one byte to spare. -/
def ex47 : List Nat :=
  [0, 0, 0, 0, 0, 0, 0, 0, 0, 0, 0, 0, 0, 0xdb, 0, 0, 0, 0, 0, 0, 0,
   5, 9, 0, 0, 0, 0, 1, 60, 0, 1, 0, 0, 0, 70, 0, 0, 0, 40, 0, 0, 0,
   1, 2, 3, 0, 0]

/-- A 46-byte STATUS payload with subtype 0xDB at offset 13: meshID 4 at
21, on-byte 0 at 27.  Only 24 bytes remain from offset 22, so the
fallthrough paginated loop parses nothing. -/
def ex46 : List Nat :=
  [0, 0, 0, 0, 0, 0, 0, 0, 0, 0, 0, 0, 0, 0xdb, 0, 0, 0, 0, 0, 0, 0,
   4, 0, 0, 0, 0, 0, 0, 77, 0, 0, 0, 0, 0, 0, 0, 0, 0, 0, 0, 0, 0,
   0, 0, 0, 0]

/-- A 27-byte SYNC payload: the 7-byte header, one complete 19-byte
record `(meshID 7, on, brightness 33, temp 25)`, and one trailing byte —
a partial record of length 1. -/
def ex27 : List Nat :=
  [0, 0, 0, 0, 0, 0, 0,
   0, 0, 0, 7, 1, 33, 25, 0, 0, 0, 0, 0, 0, 0, 0, 0, 0, 0, 0,
   9]

/-- A 33-byte STATUS_SYNC payload: meshID 5 at offset 21, on-byte 1 at
27, brightness 50 at 28. -/
def ex33 : List Nat :=
  [0, 0, 0, 0, 0, 0, 0, 0, 0, 0, 0, 0, 0, 0, 0, 0, 0, 0, 0, 0, 0,
   5, 0, 0, 0, 0, 0, 1, 50, 0, 0, 0, 0]

/-! ## Helper lemmas -/

theorem getD_drop (l : List Nat) (n k : Nat) :
    (l.drop n).getD k 0 = l.getD (n + k) 0 := by
  induction n generalizing l with
  | zero => simp
  | succ n ih =>
    cases l with
    | nil => simp
    | cons a l => simp [Nat.succ_add, ih l]

theorem seqStream_eq (n : Nat) : seqStream n = n + 1 := by
  induction n with
  | zero => rfl
  | succ n ih => simp [seqStream, ih]

theorem flushLoop_spec (q w : List (List Nat)) :
    flushLoop q w = ([], w ++ q) := by
  induction q generalizing w with
  | nil => simp [flushLoop]
  | cons p q ih => simp [flushLoop, ih]

theorem be32val_be32 (n : Nat) (h : n < 4294967296) :
    be32val (n / 16777216 % 256) (n / 65536 % 256) (n / 256 % 256)
      (n % 256) = n := by
  unfold be32val
  omega

theorem readPacket_frame (b0 : Nat) (p : List Nat) (h2 : 0 < p.length)
    (h3 : p.length < 4294967296) :
    readPacket (b0 :: be32 p.length ++ p)
      = some ⟨b0 >>> 4, p.length, b0 &&& 8 != 0, p⟩ := by
  unfold readPacket be32
  simp only [List.cons_append, List.length_cons, List.length_append,
    List.getD_cons_zero, List.getD_cons_succ, List.drop_succ_cons,
    List.drop_zero, List.take_length]
  rw [be32val_be32 p.length h3]
  simp [h2]

theorem parsePagF_short (fuel : Nat) (s : List Nat) (h : s.length ≤ 24) :
    parsePagF fuel s = [] := by
  cases fuel with
  | zero => rfl
  | succ fuel => simp [parsePagF, Nat.not_lt.mpr h]

theorem parsePag_single (s : List Nat) (h : s.length = 48) :
    parsePag s =
      [{ meshID := s.getD 0 0
         state := 0 < s.getD 8 0
         brightness := if 0 < s.getD 8 0 then s.getD 12 0 else 0
         colorTemp := some (s.getD 16 0)
         rgb := some (s.getD 20 0, s.getD 21 0, s.getD 22 0) }] := by
  rw [parsePag, h]
  rw [parsePagF]
  rw [if_pos (by omega : 24 < s.length)]
  rw [parsePagF_short _ _ (by simp [h] : (s.drop 24).length ≤ 24)]

/-! ## Claim theorems -/

/-- Claim C1, counterexample: `ex70` is a 70-byte STATUS payload with
subtype 0x52 and two consecutive 24-byte records at offset 22 (meshID 5
on with brightness 80, meshID 6 off), yet `handleStatus` dispatches only
ONE bulb update — for the first record — because the record loop demands
strictly more than 24 remaining bytes.  This falsifies the claim that
two bulb updates are applied. -/
theorem c1_counterexample :
    handleStatus ex70 = .ok [⟨5, true, 80, some 30, some (10, 20, 30)⟩] ∧
    (handleStatus ex70).map List.length = .ok 1 :=
  ⟨rfl, rfl⟩

/-- Claim C1, amended: an inbound STATUS payload of length 70 with
subtype byte 0x52 produces exactly one bulb update, decoded from the
24-byte record at offset 22; the second record (bytes 46..69) is never
parsed, since the loop requires more than 24 bytes remaining. -/
theorem c1_amended (data : List Nat) (h70 : data.length = 70)
    (hsub : data.getD 13 0 = 0x52) :
    handleStatus data =
      .ok [{ meshID := data.getD 22 0
             state := 0 < data.getD 30 0
             brightness := if 0 < data.getD 30 0 then data.getD 34 0 else 0
             colorTemp := some (data.getD 38 0)
             rgb := some (data.getD 42 0, data.getD 43 0, data.getD 44 0) }] := by
  unfold handleStatus
  rw [if_pos (by omega : 25 ≤ data.length)]
  rw [show readU8 data 13 = .ok 0x52 by
    rw [readU8, if_pos (by omega : 13 < data.length), hsub]]
  simp only [bind, Except.bind]
  norm_num
  rw [parsePag_single _ (by simp [h70] : (data.drop 22).length = 48)]
  simp [getD_drop]
  rfl

/-- Claim C1, witness for the amended theorem at the concrete 70-byte
payload `ex70b`. -/
theorem c1_amended_witness :
    ex70b.length = 70 ∧ ex70b.getD 13 0 = 0x52 ∧
    handleStatus ex70b = .ok [⟨3, false, 0, some 12, some (7, 8, 9)⟩] := by
  refine ⟨by decide, by decide, ?_⟩
  rw [c1_amended ex70b (by decide) (by decide)]
  rfl

/-- Claim C2, counterexample: `ex47` is a 47-byte STATUS payload with
subtype 0xDB.  The handler dispatches the single-device update AND — the
`case` falling through into the paginated branch — a second update parsed
as a 24-byte record from offset 22, falsifying the claim that exactly one
update is applied and no paginated records are parsed. -/
theorem c2_counterexample :
    handleStatus ex47 =
      .ok [⟨5, true, 60, none, none⟩, ⟨9, true, 70, some 40, some (1, 2, 3)⟩] ∧
    (handleStatus ex47).map List.length = .ok 2 :=
  ⟨rfl, rfl⟩

/-- Claim C2, amended: for a STATUS payload with subtype byte 0xDB the
handler dispatches the single-device update (meshID@21, on@27 > 0,
brightness@28 when on) and then falls through into the paginated parser
over the same payload from offset 22; no paginated record is parsed only
when at most 24 bytes remain there (payload length ≤ 46).  Moreover for
payload lengths 25..27 the handler does not complete the single-device
extraction at all: the read at offset 27 throws ERR_OUT_OF_RANGE. -/
theorem c2_amended (data : List Nat) (hsub : data.getD 13 0 = 0xdb) :
    (29 ≤ data.length →
      handleStatus data =
        .ok ({ meshID := data.getD 21 0
               state := 0 < data.getD 27 0
               brightness := if 0 < data.getD 27 0 then data.getD 28 0 else 0
               colorTemp := none, rgb := none }
             :: parsePag (data.drop 22)) ∧
      (data.length ≤ 46 → parsePag (data.drop 22) = [])) ∧
    (25 ≤ data.length → data.length < 28 →
      handleStatus data = .error "ERR_OUT_OF_RANGE") := by
  constructor
  · intro h29
    constructor
    · unfold handleStatus
      rw [if_pos (by omega : 25 ≤ data.length)]
      rw [show readU8 data 13 = .ok 0xdb by
        rw [readU8, if_pos (by omega : 13 < data.length), hsub]]
      simp only [bind, Except.bind]
      rw [if_pos trivial]
      rw [show readU8 data 21 = .ok (data.getD 21 0) by
        rw [readU8, if_pos (by omega : 21 < data.length)]]
      rw [show readU8 data 27 = .ok (data.getD 27 0) by
        rw [readU8, if_pos (by omega : 27 < data.length)]]
      simp only [bind, Except.bind]
      by_cases hst : 0 < data.getD 27 0
      · rw [if_pos hst, if_pos hst]
        rw [show readU8 data 28 = .ok (data.getD 28 0) by
          rw [readU8, if_pos (by omega : 28 < data.length)]]
        rfl
      · rw [if_neg hst, if_neg hst]
        rfl
    · intro h46
      exact parsePagF_short _ _ (by simp; omega)
  · intro h25 h28
    unfold handleStatus
    rw [if_pos h25]
    rw [show readU8 data 13 = .ok 0xdb by
      rw [readU8, if_pos (by omega : 13 < data.length), hsub]]
    simp only [bind, Except.bind]
    rw [if_pos trivial]
    rw [show readU8 data 21 = .ok (data.getD 21 0) by
      rw [readU8, if_pos (by omega : 21 < data.length)]]
    rw [show readU8 data 27 = .error "ERR_OUT_OF_RANGE" by
      rw [readU8, if_neg (by omega)]]

/-- Claim C2, witness for the amended theorem at the concrete 46-byte
payload `ex46`: one single-device update, no paginated records. -/
theorem c2_amended_witness :
    ex46.getD 13 0 = 0xdb ∧ 29 ≤ ex46.length ∧
    handleStatus ex46 = .ok [⟨4, false, 0, none, none⟩] := by
  refine ⟨by decide, by decide, ?_⟩
  have h := c2_amended ex46 (by decide)
  rw [(h.1 (by decide)).1, (h.1 (by decide)).2 (by decide)]
  rfl

/-- Claim C3, counterexample: an AUTH response with nonzero code (here
`readUInt16BE = 1`) leaves the session not connected but schedules NO
reconnect attempt (`scheduled` stays empty) — `handleConnect`'s failure
branch only logs.  This falsifies the claim's second conjunct. -/
theorem c3_counterexample :
    (handleConnectS ⟨false, [], [], 0, []⟩ 1 99999).connected = false ∧
    (handleConnectS ⟨false, [], [], 0, []⟩ 1 99999).scheduled = [] :=
  ⟨rfl, rfl⟩

/-- Claim C3, amended: on an AUTH response whose first two payload bytes
are nonzero the session becomes (or stays) not connected and the queue is
preserved, but the AUTH handler itself schedules no reconnect; a
reconnect (with the 10-second-floor delay) is scheduled only by
`disconnect()` when the stream ends. -/
theorem c3_amended (s : SessionState) (authCode : Nat) (now : ℤ)
    (h : authCode ≠ 0) :
    (handleConnectS s authCode now).connected = false ∧
    (handleConnectS s authCode now).scheduled = s.scheduled ∧
    (handleConnectS s authCode now).packetQueue = s.packetQueue ∧
    (disconnectS s now).scheduled
      = s.scheduled ++ [reconnectDelay now s.connectionTime] := by
  rw [handleConnectS, if_neg h]
  exact ⟨rfl, rfl, rfl, rfl⟩

/-- Claim C3, witness for the amended theorem at a concrete state and a
concrete failing AUTH code. -/
theorem c3_amended_witness :
    (1 : Nat) ≠ 0 ∧
    (handleConnectS ⟨false, [[5]], [], 200, []⟩ 1 300).connected = false ∧
    (handleConnectS ⟨false, [[5]], [], 200, []⟩ 1 300).scheduled = [] ∧
    (handleConnectS ⟨false, [[5]], [], 200, []⟩ 1 300).packetQueue = [[5]] ∧
    (disconnectS ⟨false, [[5]], [], 200, []⟩ 300).scheduled
      = [] ++ [reconnectDelay 300 200] := by
  refine ⟨by decide, ?_⟩
  exact c3_amended ⟨false, [[5]], [], 200, []⟩ 1 300 (by decide)

/-- Claim C4 (confirmed): the byte at offset 14 of the SET_STATE inner
request built by `LightBulb.sendUpdate` is
`(496 + meshID + (on ? 1 : 0) + brightness + cyncTemp + r + g + b) % 256`,
for every byte-valued input (the ranges are those Node's checked buffer
writes require). -/
theorem c4_checksum (meshID : Nat) (isOn : Bool) (brightness cyncTemp r g b : Nat)
    (hm : meshID ≤ 65535) (hb : brightness ≤ 255) (hc : cyncTemp ≤ 255)
    (hr : r ≤ 255) (hg : g ≤ 255) (hbb : b ≤ 255) :
    (sendUpdateRequest meshID isOn brightness cyncTemp r g b).map
        (fun l => l.getD 14 0)
      = .ok ((496 + meshID + (if isOn then 1 else 0) + brightness + cyncTemp
              + r + g + b) % 256) := by
  unfold sendUpdateRequest writeU16BE writeU8C
  rw [if_pos hm, if_pos hb, if_pos hc, if_pos hr, if_pos hg, if_pos hbb]
  rfl

/-- Claim C4, witness: at `meshID=5, on, bright=50, cyncTemp=20,
rgb=(0,0,0)` the checksum byte is `(496+5+1+50+20) % 256 = 60`. -/
theorem c4_checksum_witness :
    (5 : Nat) ≤ 65535 ∧
    (sendUpdateRequest 5 true 50 20 0 0 0).map (fun l => l.getD 14 0)
      = .ok 60 := by
  refine ⟨by decide, ?_⟩
  rw [c4_checksum 5 true 50 20 0 0 0 (by decide) (by decide) (by decide)
    (by decide) (by decide) (by decide)]
  rfl

/-- Claim C5, counterexample: the empty payload does not round-trip.
`createPacket 13 []` (the PING frame the code actually sends) leaves the
length field zero, and `readPacket` returns null for a zero length
instead of `(13, [], isResponse=false)`. -/
theorem c5_counterexample :
    createPacket 13 [] = .ok [0xd3, 0, 0, 0, 0] ∧
    (createPacket 13 []).map readPacket = .ok none :=
  ⟨rfl, rfl⟩

/-- Claim C5, amended: for every packet type in {1,4,7,8,10,13} and every
NONEMPTY payload of length below 2^32, decoding the encoding returns the
same type, the same payload and `isResponse = false`; the empty payload
is instead dropped by `readPacket` (it returns null on a zero length
field). -/
theorem c5_amended (t : Nat) (p : List Nat)
    (ht : t = 1 ∨ t = 4 ∨ t = 7 ∨ t = 8 ∨ t = 10 ∨ t = 13)
    (hp : 0 < p.length) (hp2 : p.length < 4294967296) :
    (createPacket t p).map readPacket
      = .ok (some ⟨t, p.length, false, p⟩) := by
  have hb : t <<< 4 ||| 3 ≤ 255 := by
    rcases ht with h | h | h | h | h | h <;> subst h <;> decide
  unfold createPacket writeU8C writeU32BE
  rw [if_pos hb]
  simp only [hp, if_true, if_pos hp2]
  show Except.ok (readPacket ((t <<< 4 ||| 3) :: be32 p.length ++ p)) = _
  rw [readPacket_frame _ p hp hp2]
  rcases ht with h | h | h | h | h | h <;> subst h <;> simp <;> decide

/-- Claim C5, witness for the amended theorem: type 7 with the one-byte
payload `[171]`. -/
theorem c5_amended_witness :
    (0 : Nat) < [171].length ∧
    (createPacket 7 [171]).map readPacket
      = .ok (some ⟨7, 1, false, [171]⟩) := by
  refine ⟨by decide, ?_⟩
  rw [c5_amended 7 [171] (Or.inr (Or.inr (Or.inl rfl))) (by decide) (by decide)]
  rfl

/-- Claim C6 (confirmed): `disconnect()` schedules the next connect
attempt with delay `reconnectDelay`, which equals the claim's
`max(0, 10000 - (now - lastConnectSuccess))`, and therefore — whenever
the clock is at or past the last successful connection time — the
scheduled attempt fires no earlier than 10000 ms after that success. -/
theorem c6_reconnect_floor (s : SessionState) (now : ℤ) :
    (disconnectS s now).scheduled
      = s.scheduled ++ [reconnectDelay now s.connectionTime] ∧
    reconnectDelay now s.connectionTime
      = max 0 (10000 - (now - s.connectionTime)) ∧
    (s.connectionTime ≤ now →
      s.connectionTime + 10000 ≤ now + reconnectDelay now s.connectionTime) := by
  refine ⟨rfl, ?_, ?_⟩
  · rw [reconnectDelay, max_comm]
    congr 1
    ring
  · intro h
    rw [reconnectDelay]
    rcases le_total (10000 - now + s.connectionTime) 0 with h1 | h1
    · rw [max_eq_right h1]
      omega
    · rw [max_eq_left h1]
      omega

/-- Claim C6, witness: a connection succeeded at time 0 and the stream
ends at time 5000; the reconnect is scheduled 5000 ms out, so the next
attempt is at 10000 ms — exactly the floor. -/
theorem c6_reconnect_floor_witness :
    ((0 : ℤ) ≤ 5000) ∧
    (disconnectS ⟨true, [], [], 0, []⟩ 5000).scheduled
      = [] ++ [reconnectDelay 5000 0] ∧
    reconnectDelay 5000 0 = max 0 (10000 - (5000 - 0)) ∧
    (0 : ℤ) + 10000 ≤ 5000 + reconnectDelay 5000 0 := by
  have h := c6_reconnect_floor ⟨true, [], [], 0, []⟩ 5000
  exact ⟨by norm_num, h.1, h.2.1, h.2.2 (by norm_num)⟩

/-- Claim C7 (confirmed): sends submitted while not connected go to the
FIFO `packetQueue`; `handleConnect` on a successful AUTH response drains
the whole queue to the wire in submission order before `connected` is
set, and a send submitted afterwards lands on the wire after them.  In
particular A (sent first) precedes B on the wire; `disconnect` preserves
the queue. -/
theorem c7_queue_fifo (s : SessionState) (A B C : List Nat) (now : ℤ)
    (h : s.connected = false) :
    (handleConnectS (sendPacketS (sendPacketS s A) B) 0 now).wire
      = s.wire ++ s.packetQueue ++ [A, B] ∧
    (handleConnectS (sendPacketS (sendPacketS s A) B) 0 now).packetQueue
      = [] ∧
    (sendPacketS (handleConnectS (sendPacketS (sendPacketS s A) B) 0 now) C).wire
      = s.wire ++ s.packetQueue ++ [A, B] ++ [C] ∧
    (disconnectS s now).packetQueue = s.packetQueue := by
  simp [sendPacketS, h, handleConnectS, flushQueueS, flushLoop_spec,
    disconnectS]

/-- Claim C7, witness: a concrete disconnected session with one queued
packet `[9]` and prior wire `[1]`; sends `[2]`, `[3]`, connect success,
then send `[4]`. -/
theorem c7_queue_fifo_witness :
    (handleConnectS (sendPacketS (sendPacketS ⟨false, [[9]], [[1]], 0, []⟩ [2]) [3]) 0 7).wire
      = [[1]] ++ [[9]] ++ [[2], [3]] ∧
    (handleConnectS (sendPacketS (sendPacketS ⟨false, [[9]], [[1]], 0, []⟩ [2]) [3]) 0 7).packetQueue
      = [] ∧
    (sendPacketS (handleConnectS (sendPacketS (sendPacketS ⟨false, [[9]], [[1]], 0, []⟩ [2]) [3]) 0 7) [4]).wire
      = [[1]] ++ [[9]] ++ [[2], [3]] ++ [[4]] ∧
    (disconnectS ⟨false, [[9]], [[1]], 0, []⟩ 7).packetQueue = [[9]] :=
  c7_queue_fifo ⟨false, [[9]], [[1]], 0, []⟩ [2] [3] [4] 7 rfl

/-- Claim C8, counterexample: the sequence counter does not wrap modulo
2^16 — after 65535 requests its value is 65536, and building the next
request throws ERR_OUT_OF_RANGE in `writeUInt16BE` instead of wrapping. -/
theorem c8_counterexample :
    seqStream 65535 = 65536 ∧
    sendRequestData 1000 (seqStream 65535) 0xd0 []
      = .error "ERR_OUT_OF_RANGE" := by
  have h := seqStream_eq 65535
  exact ⟨by rw [h], by rw [h]; rfl⟩

/-- Claim C8, amended: the sequence counter starts at 1 at platform
construction (it is never reset, so later sessions continue where the
previous one stopped rather than restarting at 1) and increases by 1
with each STATUS/CONNECTED request; while its value is at most 65535 the
request carries it big-endian at payload offsets 4..5, and once it
exceeds 65535 the checked 16-bit write throws instead of wrapping. -/
theorem c8_amended (n switchID subtype : Nat) (request : List Nat)
    (hsw : switchID < 4294967296) (hst : subtype ≤ 255)
    (hreq : request.length ≤ 255) :
    seqStream 0 = 1 ∧
    seqStream (n + 1) = seqStream n + 1 ∧
    (seqStream n ≤ 65535 →
      (sendRequestData switchID (seqStream n) subtype request).map
          (fun l => (l.getD 4 0, l.getD 5 0))
        = .ok (seqStream n / 256, seqStream n % 256) ∧
      (connectedRequestData switchID (seqStream n)).map
          (fun l => (l.getD 4 0, l.getD 5 0))
        = .ok (seqStream n / 256, seqStream n % 256)) ∧
    (65535 < seqStream n →
      sendRequestData switchID (seqStream n) subtype request
        = .error "ERR_OUT_OF_RANGE") := by
  refine ⟨rfl, rfl, ?_, ?_⟩
  · intro hseq
    constructor
    · unfold sendRequestData writeU32BE writeU16BE writeU8C
      rw [if_pos hsw, if_pos hseq, if_pos hst, if_pos hreq]
      rfl
    · unfold connectedRequestData writeU32BE writeU16BE
      rw [if_pos hsw, if_pos hseq]
      rfl
  · intro hseq
    unfold sendRequestData writeU32BE writeU16BE
    rw [if_pos hsw, if_neg (by omega : ¬ seqStream n ≤ 65535)]
    rfl

/-- Claim C8, witness: the first request of a fresh platform carries
sequence number 1 at offsets 4..5. -/
theorem c8_amended_witness :
    seqStream 0 ≤ 65535 ∧
    (sendRequestData 1000 (seqStream 0) 0xd0 []).map
        (fun l => (l.getD 4 0, l.getD 5 0))
      = .ok (seqStream 0 / 256, seqStream 0 % 256) := by
  refine ⟨by decide, ?_⟩
  exact ((c8_amended 0 1000 0xd0 [] (by decide) (by decide) (by decide)).2.2.1
    (by decide)).1

/-- Claim C9 (code bug): `ex27` is a SYNC payload whose body after the
7-byte header is 20 bytes — one complete 19-byte record followed by a
one-byte partial record.  The claim (and §4.7 of the spec) say the
partial record is discarded and the handler terminates normally.  The
code instead applies the complete record and then throws
ERR_OUT_OF_RANGE reading offset 3 of the one-byte slice: the loop
`offset < data.length` enters the partial record and `readUInt8`
validates its offset. -/
theorem c9_sync_throws :
    handleSync ex27 = ([⟨7, true, 33, 25⟩], some "ERR_OUT_OF_RANGE") := by
  decide

/-- Claim C10, counterexample: a bulb that was last touched by the user
setter `setColorTemp 150` has `colorTemp = 150` but
`cyncColorTemp = 100 - round(10*100/360) = 97`.  Applying a STATUS_SYNC
delta (on, brightness 50) recomputes
`colorTemp = round((100-97)*360/100) + 140 = 151 ≠ 150`, so a field
other than `on`/`brightness` changed, falsifying the claim. -/
theorem c10_counterexample :
    (handleStatusSync ex33 (setColorTemp freshBulb 150)).colorTemp = 151 ∧
    (setColorTemp freshBulb 150).colorTemp = 150 := by
  constructor
  · rw [handleStatusSync, if_pos (by decide : 33 ≤ ex33.length)]
    show (updateStatus _ _ _ (setColorTemp freshBulb 150).cyncColorTemp _).colorTemp
      = 151
    rw [updateStatus]
    rw [show (setColorTemp freshBulb 150).cyncColorTemp = 97 by
      show 100 - jsRound (((150 - 140 : ℤ) * 100 : ℚ) / 360) = 97
      norm_num [jsRound, Int.floor_eq_iff]]
    show derivedColorTemp 97 = 151
    norm_num [derivedColorTemp, jsRound, Int.floor_eq_iff]
  · rfl

/-- Claim C10, amended: applying a STATUS_SYNC delta leaves
`cyncColorTemp` and `rgb` unchanged and recomputes `colorTemp`, `hue`
and `saturation` as pure functions of those unchanged inputs; they
therefore equal their prior values exactly when the bulb's derived
fields were already consistent with those formulas (as after any
previous `updateStatus`), but can change otherwise (e.g. after a user
`setColorTemp`). -/
theorem c10_amended (bulb : Bulb) (data : List Nat) (h : 33 ≤ data.length) :
    (handleStatusSync data bulb).cyncColorTemp = bulb.cyncColorTemp ∧
    (handleStatusSync data bulb).rgb = bulb.rgb ∧
    (handleStatusSync data bulb).colorTemp
      = derivedColorTemp bulb.cyncColorTemp ∧
    (handleStatusSync data bulb).hue = (rgbToHS bulb.rgb).1 ∧
    (handleStatusSync data bulb).saturation = (rgbToHS bulb.rgb).2 ∧
    (derivedConsistent bulb →
      (handleStatusSync data bulb).colorTemp = bulb.colorTemp ∧
      (handleStatusSync data bulb).hue = bulb.hue ∧
      (handleStatusSync data bulb).saturation = bulb.saturation) := by
  rw [handleStatusSync, if_pos h]
  refine ⟨rfl, rfl, rfl, rfl, rfl, ?_⟩
  rintro ⟨e1, e2, e3⟩
  exact ⟨e1.symm, e2.symm, e3.symm⟩

/-- Claim C10, witness: a derived-consistent bulb (one produced by
`updateStatus` itself) keeps its `colorTemp` across a STATUS_SYNC
apply. -/
theorem c10_amended_witness :
    33 ≤ ex33.length ∧
    (handleStatusSync ex33 (updateStatus freshBulb false 0 0 (0, 0, 0))).colorTemp
      = (updateStatus freshBulb false 0 0 (0, 0, 0)).colorTemp := by
  refine ⟨by decide, ?_⟩
  exact ((c10_amended (updateStatus freshBulb false 0 0 (0, 0, 0)) ex33
    (by decide)).2.2.2.2.2 ⟨rfl, rfl, rfl⟩).1

end Cync
